import Mathlib

/-!
Verification of the AurixTutorial StmStaticCycle module.

Part 1 embeds `AppTaskFu.c`: four periodic task functions, each owning a
wrapping counter, plus empty init/idle/ISR-callback hooks.

Part 2 embeds the IOM driver subsystem whose structures and prototypes are
declared in `IfxIom_Driver.h`; the implementation file is not part of the
repository snapshot, so the operations are modelled from the specification.
-/

set_option maxRecDepth 4096

/-- State of the `AppTaskFu.c` translation unit: the four `static sint32`
task counters and the four exported `boolean` task flags. -/
structure AppState where
  task_cnt_1m : Int
  task_cnt_10m : Int
  task_cnt_100m : Int
  task_cnt_1000m : Int
  task_flag_1m : Bool
  task_flag_10m : Bool
  task_flag_100m : Bool
  task_flag_1000m : Bool
deriving DecidableEq, Repr

/-- The zero-initialized state of the translation unit (`= 0` / `FALSE`
initializers at file scope). -/
def initAppState : AppState :=
  { task_cnt_1m := 0, task_cnt_10m := 0, task_cnt_100m := 0, task_cnt_1000m := 0
    task_flag_1m := false, task_flag_10m := false
    task_flag_100m := false, task_flag_1000m := false }

/-- `appTaskfu_init`: empty body. -/
def appTaskfu_init (s : AppState) : AppState := s

/-- `appTaskfu_1ms`: increments `task_cnt_1m`, resets it to 0 when it
reaches 1000. -/
def appTaskfu_1ms (s : AppState) : AppState :=
  let s1 := { s with task_cnt_1m := s.task_cnt_1m + 1 }
  if s1.task_cnt_1m = 1000 then { s1 with task_cnt_1m := 0 } else s1

/-- `appTaskfu_10ms`: increments `task_cnt_10m`, resets it to 0 when it
reaches 100. -/
def appTaskfu_10ms (s : AppState) : AppState :=
  let s1 := { s with task_cnt_10m := s.task_cnt_10m + 1 }
  if s1.task_cnt_10m = 100 then { s1 with task_cnt_10m := 0 } else s1

/-- `appTaskfu_100ms`: increments `task_cnt_100m`, resets it to 0 when it
reaches 100. -/
def appTaskfu_100ms (s : AppState) : AppState :=
  let s1 := { s with task_cnt_100m := s.task_cnt_100m + 1 }
  if s1.task_cnt_100m = 100 then { s1 with task_cnt_100m := 0 } else s1

/-- `appTaskfu_1000ms`: calls `IfxBlinkLed_Task()` (external, does not touch
this translation unit's state), then increments `task_cnt_1000m`, resetting
it to 0 when it reaches 1000. -/
def appTaskfu_1000ms (s : AppState) : AppState :=
  let s1 := { s with task_cnt_1000m := s.task_cnt_1000m + 1 }
  if s1.task_cnt_1000m = 1000 then { s1 with task_cnt_1000m := 0 } else s1

/-- `appTaskfu_idle`: empty body. -/
def appTaskfu_idle (s : AppState) : AppState := s

/-- `appIsrCb_1ms`: empty body. -/
def appIsrCb_1ms (s : AppState) : AppState := s

/-- The entry points of `AppTaskFu.c` that the cyclic dispatcher may call. -/
inductive TaskCall where
  | init | t1ms | t10ms | t100ms | t1000ms | idle | isr1ms
deriving DecidableEq, Repr

/-- Dispatch one entry-point call to its effect on the module state. -/
def taskStep : TaskCall → AppState → AppState
  | .init => appTaskfu_init
  | .t1ms => appTaskfu_1ms
  | .t10ms => appTaskfu_10ms
  | .t100ms => appTaskfu_100ms
  | .t1000ms => appTaskfu_1000ms
  | .idle => appTaskfu_idle
  | .isr1ms => appIsrCb_1ms

/-- Run a sequence of entry-point calls from a starting state. -/
def taskRun : List TaskCall → AppState → AppState
  | [], s => s
  | c :: cs, s => taskRun cs (taskStep c s)

/-- All four task counters are within their wrap bounds. -/
def CntInv (s : AppState) : Prop :=
  (0 ≤ s.task_cnt_1m ∧ s.task_cnt_1m < 1000) ∧
  (0 ≤ s.task_cnt_10m ∧ s.task_cnt_10m < 100) ∧
  (0 ≤ s.task_cnt_100m ∧ s.task_cnt_100m < 100) ∧
  (0 ≤ s.task_cnt_1000m ∧ s.task_cnt_1000m < 1000)

instance (s : AppState) : Decidable (CntInv s) := by
  unfold CntInv; infer_instance

/-!
## IOM driver model

`IfxIom_Driver.h` (in the repository) declares the data structures and the
function prototypes; the implementation `IfxIom_Driver.c` is not in the
snapshot, so each operation below is modelled from the specification
(spec.md §4.1–§4.6). Struct and function names follow the header; the spec
calls `lamUsedMask` the `channelUsedMask`, and `accumulatedEventUsedMask`
the `accumulatorUsedMask`.
-/

/-- Error kinds of the driver (spec §7), plus the allocator's
`NoneAvailable` result. -/
inductive DriverError where
  | InvalidParameter | AlreadyUsed | OutOfRange | ResourceExhausted
deriving DecidableEq, Repr

/-- Modelled from the spec: the accumulator pool is a fixed small set,
e.g. 4 entries (spec §4.2); `IfxIom_Driver.h` confirms "max 4 counters
exists for the IOM". -/
def accumulatorPoolSize : Nat := 4

/-- `IfxIom_Driver` struct from the header: `lamUsedMask` is the
channel-used bitmask (bit i = LAM i), `accumulatedEventUsedMask` the
accumulator-used bitmask (bit i = CTS i). `enabledEvents` models the
module's enabled-event configuration that `IfxIom_Driver_disableEvents`
saves and `IfxIom_Driver_restoreEvents` restores (spec §4.6); in hardware
it lives in the register block the struct's `module` pointer refers to. -/
structure IfxIom_Driver where
  lamUsedMask : Nat
  accumulatedEventUsedMask : Nat
  enabledEvents : Nat
deriving DecidableEq, Repr

/-- `IfxIom_Driver_Lam` struct from the header: the fields the model
tracks. `accumulatedCounterIndex` is `sint8`; negative value means no
counter used. -/
structure IfxIom_Driver_Lam where
  channel : Nat
  monIndex : Nat
  refIndex : Nat
  accumulatedCounterIndex : Int
  systemEventTriggerThreshold : Nat
deriving DecidableEq, Repr

/-- Filter mode (spec §3: none / immediate-debounce / delayed-debounce /
prescaler). -/
inductive LamFilterMode where
  | noFilter | immediateDebounce | delayedDebounce | prescalerMode
deriving DecidableEq, Repr

/-- `IfxIom_Driver_LamFilterConfig` from the header; times are in
seconds, modelled as rationals. -/
structure IfxIom_Driver_LamFilterConfig where
  clearTimerOnGlitch : Bool
  fallingEdgeFilterTime : ℚ
  mode : LamFilterMode
  prescalerFactor : Nat
  risingEdgeFilterTime : ℚ
deriving DecidableEq, Repr

/-- `IfxIom_Driver_LamConfig` from the header: the fields the model
tracks (input selectors are opaque indices, spec §6). -/
structure IfxIom_Driver_LamConfig where
  channel : Nat
  monInput : Nat
  monFilter : IfxIom_Driver_LamFilterConfig
  refInput : Nat
  refFilter : IfxIom_Driver_LamFilterConfig
  eventWindowThreshold : ℚ
  systemEventTriggerThreshold : Nat
deriving DecidableEq, Repr

/-- Modelled from the spec: maximum representable tick count of the target
counter (spec §4.1, "documented bit width, e.g. 0..65535"). -/
def tickMax : Int := 65535

/-- Modelled from the spec: `toTicks` (spec §4.1). Computes
`round(seconds / clockPeriod)` and fails with `OutOfRange` if the rounded
value exceeds the counter's maximum. -/
def toTicks (seconds clockPeriod : ℚ) : Except DriverError Int :=
  let t : Int := round (seconds / clockPeriod)
  if tickMax < t then .error .OutOfRange else .ok t

/-- A filter resolved to tick level (spec §4.3 output). -/
structure ResolvedFilter where
  mode : LamFilterMode
  clearTimerOnGlitch : Bool
  prescalerFactor : Nat
  fallingEdgeFilterTicks : Int
  risingEdgeFilterTicks : Int
deriving DecidableEq, Repr

/-- Modelled from the spec: the FilterConfigurator `resolve` operation
(spec §4.3), validation rules in the given order. -/
def resolveFilter (cfg : IfxIom_Driver_LamFilterConfig) (clockPeriod : ℚ) :
    Except DriverError ResolvedFilter :=
  if cfg.mode = .prescalerMode ∧ cfg.prescalerFactor = 0 then
    .error .InvalidParameter
  else if cfg.fallingEdgeFilterTime < 0 ∨ cfg.risingEdgeFilterTime < 0 then
    .error .InvalidParameter
  else
    match toTicks cfg.fallingEdgeFilterTime clockPeriod with
    | .error e => .error e
    | .ok f =>
      match toTicks cfg.risingEdgeFilterTime clockPeriod with
      | .error e => .error e
      | .ok r =>
        .ok { mode := cfg.mode, clearTimerOnGlitch := cfg.clearTimerOnGlitch,
              prescalerFactor := cfg.prescalerFactor,
              fallingEdgeFilterTicks := f, risingEdgeFilterTicks := r }

/-- Modelled from the spec: find the lowest free accumulator index by
scanning the pool in ascending index order (spec §4.2). -/
def findFreeAccumulator (mask : Nat) : Option Nat :=
  (List.range accumulatorPoolSize).find? (fun i => !(mask.testBit i))

/-- Modelled from the spec: `allocateFreeAccumulator` (spec §4.2). Returns
the first unset bit of the accumulator pool and sets it, or `none` when
the pool is exhausted. -/
def IfxIom_Driver_allocateFreeAccumulator (d : IfxIom_Driver) :
    Option (Nat × IfxIom_Driver) :=
  match findFreeAccumulator d.accumulatedEventUsedMask with
  | none => none
  | some i =>
    some (i, { d with
      accumulatedEventUsedMask := d.accumulatedEventUsedMask ||| (1 <<< i) })

/-- Modelled from the spec: `tryAllocateChannel` (spec §4.2). Atomically
checks and sets the bit for `id` in the channel-used mask; fails with
`AlreadyUsed` if already set, leaving the driver unchanged. -/
def IfxIom_Driver_tryAllocateChannel (d : IfxIom_Driver) (id : Nat) :
    Except DriverError Unit × IfxIom_Driver :=
  if d.lamUsedMask.testBit id then (.error .AlreadyUsed, d)
  else (.ok (), { d with lamUsedMask := d.lamUsedMask ||| (1 <<< id) })

/-- Modelled from the spec: `IfxIom_Driver_initLam` (spec §4.4), given the
module clock period. Steps: (1) reject an already-allocated channel,
(2) resolve monitor and reference filters, (3) resolve the event-window
threshold, (4) determine accumulator need from
`systemEventTriggerThreshold`, (5) commit mask bits only after every
validation step succeeded. Returns the result together with the driver
state after the call; on any failure the driver is returned as it was. -/
def IfxIom_Driver_initLam (d : IfxIom_Driver) (cfg : IfxIom_Driver_LamConfig)
    (clockPeriod : ℚ) : Except DriverError IfxIom_Driver_Lam × IfxIom_Driver :=
  if d.lamUsedMask.testBit cfg.channel then (.error .AlreadyUsed, d)
  else
    match resolveFilter cfg.monFilter clockPeriod with
    | .error e => (.error e, d)
    | .ok _ =>
      match resolveFilter cfg.refFilter clockPeriod with
      | .error e => (.error e, d)
      | .ok _ =>
        match toTicks cfg.eventWindowThreshold clockPeriod with
        | .error e => (.error e, d)
        | .ok _ =>
          if 15 < cfg.systemEventTriggerThreshold then
            (.error .InvalidParameter, d)
          else if cfg.systemEventTriggerThreshold ≤ 1 then
            (.ok { channel := cfg.channel, monIndex := cfg.monInput,
                   refIndex := cfg.refInput, accumulatedCounterIndex := -1,
                   systemEventTriggerThreshold := cfg.systemEventTriggerThreshold },
             { d with lamUsedMask := d.lamUsedMask ||| (1 <<< cfg.channel) })
          else
            match findFreeAccumulator d.accumulatedEventUsedMask with
            | none => (.error .ResourceExhausted, d)
            | some i =>
              (.ok { channel := cfg.channel, monIndex := cfg.monInput,
                     refIndex := cfg.refInput, accumulatedCounterIndex := (i : Int),
                     systemEventTriggerThreshold := cfg.systemEventTriggerThreshold },
               { d with
                 lamUsedMask := d.lamUsedMask ||| (1 <<< cfg.channel),
                 accumulatedEventUsedMask :=
                   d.accumulatedEventUsedMask ||| (1 <<< i) })

/-- Modelled from the spec: `IfxIom_Driver_disableEvents` (spec §4.6).
Disables all event generation and returns the prior enabled-event
bitmask. -/
def IfxIom_Driver_disableEvents (d : IfxIom_Driver) : Nat × IfxIom_Driver :=
  (d.enabledEvents, { d with enabledEvents := 0 })

/-- Modelled from the spec: `IfxIom_Driver_restoreEvents` (spec §4.6).
Re-enables exactly the events indicated by `mask`. -/
def IfxIom_Driver_restoreEvents (d : IfxIom_Driver) (mask : Nat) :
    IfxIom_Driver :=
  { d with enabledEvents := mask }

/-- A driver with both resource masks free and no events enabled, as after
`IfxIom_Driver_init` (spec §4.6). -/
def dFree : IfxIom_Driver :=
  { lamUsedMask := 0, accumulatedEventUsedMask := 0, enabledEvents := 0 }

/-- A driver on which LAM channel 0 is already allocated. -/
def dBusy : IfxIom_Driver :=
  { lamUsedMask := 1, accumulatedEventUsedMask := 0, enabledEvents := 0 }

/-- A no-filter configuration with zero filter times. -/
def exFilterConfig : IfxIom_Driver_LamFilterConfig :=
  { clearTimerOnGlitch := false, fallingEdgeFilterTime := 0,
    mode := .noFilter, prescalerFactor := 1, risingEdgeFilterTime := 0 }

/-- A LAM configuration for channel 0 with system-event trigger
threshold 2 (so an accumulator is required). -/
def exLamConfig : IfxIom_Driver_LamConfig :=
  { channel := 0, monInput := 0, monFilter := exFilterConfig,
    refInput := 0, refFilter := exFilterConfig,
    eventWindowThreshold := 0, systemEventTriggerThreshold := 2 }

/-- The LAM object produced by configuring `exLamConfig` on `dFree`. -/
def exLam : IfxIom_Driver_Lam :=
  { channel := 0, monIndex := 0, refIndex := 0,
    accumulatedCounterIndex := 0, systemEventTriggerThreshold := 2 }

/-- The driver state after configuring `exLamConfig` on `dFree`: channel 0
and accumulator 0 allocated. -/
def dAfter : IfxIom_Driver :=
  { lamUsedMask := 1, accumulatedEventUsedMask := 1, enabledEvents := 0 }

/-!
## Helper lemmas
-/

lemma findFreeAccumulator_mask0 : findFreeAccumulator 0 = some 0 := rfl

lemma findFreeAccumulator_mask1 : findFreeAccumulator 1 = some 1 := rfl

lemma findFreeAccumulator_mask3 : findFreeAccumulator 3 = some 2 := rfl

lemma findFreeAccumulator_mask7 : findFreeAccumulator 7 = some 3 := rfl

lemma findFreeAccumulator_mask15 : findFreeAccumulator 15 = none := rfl

lemma lorBit0 : (0 : Nat) ||| 1 <<< 0 = 1 := rfl

lemma lorBit1 : (1 : Nat) ||| 1 <<< 1 = 3 := rfl

lemma lorBit2 : (3 : Nat) ||| 1 <<< 2 = 7 := rfl

lemma lorBit3 : (7 : Nat) ||| 1 <<< 3 = 15 := rfl

lemma toTicks_zero_eval (p : ℚ) : toTicks 0 p = .ok 0 := by
  simp [toTicks, tickMax]

/-- Evaluation of the example filter configuration. -/
lemma resolveFilter_ex_eval :
    resolveFilter exFilterConfig 1 =
      .ok { mode := .noFilter, clearTimerOnGlitch := false,
            prescalerFactor := 1, fallingEdgeFilterTicks := 0,
            risingEdgeFilterTicks := 0 } := by
  unfold resolveFilter exFilterConfig
  norm_num [toTicks_zero_eval]

/-- Evaluation of the example configuration on a free driver: success,
accumulator 0 assigned. -/
lemma initLam_dFree_eval :
    IfxIom_Driver_initLam dFree exLamConfig 1 = (.ok exLam, dAfter) := by
  unfold IfxIom_Driver_initLam dFree exLamConfig exLam dAfter
  norm_num [resolveFilter_ex_eval, toTicks_zero_eval,
    findFreeAccumulator_mask0, lorBit0]

/-- Evaluation of the example configuration on a driver whose channel 0 is
already used: `AlreadyUsed`, driver unchanged. -/
lemma initLam_dBusy_eval :
    IfxIom_Driver_initLam dBusy exLamConfig 1 =
      (.error .AlreadyUsed, dBusy) := by
  unfold IfxIom_Driver_initLam dBusy exLamConfig
  norm_num [Nat.testBit_one_zero]

/-- Evaluation of a channel-0 allocation on a free driver. -/
lemma tryAllocateChannel_dFree_eval :
    IfxIom_Driver_tryAllocateChannel dFree 0 = (.ok (), dBusy) := by
  unfold IfxIom_Driver_tryAllocateChannel dFree dBusy
  norm_num [lorBit0]

/-- Incrementing with reset-at-bound agrees with modular increment for an
in-range starting value. -/
lemma wrapIncr_eq_mod (x b : Int) (h0 : 0 ≤ x) (hb : x < b) :
    (if x + 1 = b then (0 : Int) else x + 1) = (x + 1) % b := by
  by_cases hx : x + 1 = b
  · simp [hx]
  · rw [if_neg hx, Int.emod_eq_of_lt (by omega) (by omega)]

lemma cntInv_step (c : TaskCall) (s : AppState) (h : CntInv s) :
    CntInv (taskStep c s) := by
  obtain ⟨⟨h1a, h1b⟩, ⟨h2a, h2b⟩, ⟨h3a, h3b⟩, ⟨h4a, h4b⟩⟩ := h
  cases c <;>
    simp only [taskStep, appTaskfu_init, appTaskfu_1ms, appTaskfu_10ms,
      appTaskfu_100ms, appTaskfu_1000ms, appTaskfu_idle, appIsrCb_1ms,
      CntInv] <;>
    first
      | omega
      | (split <;> simp_all <;> omega)

lemma cntInv_run (l : List TaskCall) (s : AppState) (h : CntInv s) :
    CntInv (taskRun l s) := by
  induction l generalizing s with
  | nil => exact h
  | cons c cs ih => exact ih _ (cntInv_step c s h)

/-!
## Claim theorems: AppTaskFu.c
-/

/-- C8: each periodic task function updates its private counter to
(old value + 1) modulo its bound (1000 for `appTaskfu_1ms` and
`appTaskfu_1000ms`, 100 for `appTaskfu_10ms` and `appTaskfu_100ms`)
whenever the old value is in range, and starting from the zero-initialized
state every counter stays within its bound under any sequence of
entry-point calls. -/
theorem taskCounters_wrap_and_bounded (s : AppState)
    (h1 : 0 ≤ s.task_cnt_1m ∧ s.task_cnt_1m < 1000)
    (h2 : 0 ≤ s.task_cnt_10m ∧ s.task_cnt_10m < 100)
    (h3 : 0 ≤ s.task_cnt_100m ∧ s.task_cnt_100m < 100)
    (h4 : 0 ≤ s.task_cnt_1000m ∧ s.task_cnt_1000m < 1000)
    (l : List TaskCall) :
    (appTaskfu_1ms s).task_cnt_1m = (s.task_cnt_1m + 1) % 1000 ∧
    (appTaskfu_10ms s).task_cnt_10m = (s.task_cnt_10m + 1) % 100 ∧
    (appTaskfu_100ms s).task_cnt_100m = (s.task_cnt_100m + 1) % 100 ∧
    (appTaskfu_1000ms s).task_cnt_1000m = (s.task_cnt_1000m + 1) % 1000 ∧
    CntInv (taskRun l initAppState) := by
  refine ⟨?_, ?_, ?_, ?_, cntInv_run l initAppState (by decide)⟩ <;>
    (simp only [appTaskfu_1ms, appTaskfu_10ms, appTaskfu_100ms,
      appTaskfu_1000ms]
     split <;> simp_all <;> omega)

/-- Witness for C8 at the zero-initialized state with a one-call
sequence. -/
theorem taskCounters_wrap_and_bounded_witness :
    (0 ≤ initAppState.task_cnt_1m ∧ initAppState.task_cnt_1m < 1000) ∧
    (0 ≤ initAppState.task_cnt_10m ∧ initAppState.task_cnt_10m < 100) ∧
    (0 ≤ initAppState.task_cnt_100m ∧ initAppState.task_cnt_100m < 100) ∧
    (0 ≤ initAppState.task_cnt_1000m ∧ initAppState.task_cnt_1000m < 1000) ∧
    ((appTaskfu_1ms initAppState).task_cnt_1m =
        (initAppState.task_cnt_1m + 1) % 1000 ∧
      (appTaskfu_10ms initAppState).task_cnt_10m =
        (initAppState.task_cnt_10m + 1) % 100 ∧
      (appTaskfu_100ms initAppState).task_cnt_100m =
        (initAppState.task_cnt_100m + 1) % 100 ∧
      (appTaskfu_1000ms initAppState).task_cnt_1000m =
        (initAppState.task_cnt_1000m + 1) % 1000 ∧
      CntInv (taskRun [TaskCall.t1ms] initAppState)) :=
  ⟨by decide, by decide, by decide, by decide,
    taskCounters_wrap_and_bounded initAppState (by decide) (by decide)
      (by decide) (by decide) [TaskCall.t1ms]⟩

/-- C9: `appTaskfu_1ms`, `appTaskfu_10ms` and `appTaskfu_100ms` each
modify only their own counter: every other task counter and all four task
flags keep their pre-call values. -/
theorem taskFunctions_frame (s : AppState) :
    ((appTaskfu_1ms s).task_cnt_10m = s.task_cnt_10m ∧
      (appTaskfu_1ms s).task_cnt_100m = s.task_cnt_100m ∧
      (appTaskfu_1ms s).task_cnt_1000m = s.task_cnt_1000m ∧
      (appTaskfu_1ms s).task_flag_1m = s.task_flag_1m ∧
      (appTaskfu_1ms s).task_flag_10m = s.task_flag_10m ∧
      (appTaskfu_1ms s).task_flag_100m = s.task_flag_100m ∧
      (appTaskfu_1ms s).task_flag_1000m = s.task_flag_1000m) ∧
    ((appTaskfu_10ms s).task_cnt_1m = s.task_cnt_1m ∧
      (appTaskfu_10ms s).task_cnt_100m = s.task_cnt_100m ∧
      (appTaskfu_10ms s).task_cnt_1000m = s.task_cnt_1000m ∧
      (appTaskfu_10ms s).task_flag_1m = s.task_flag_1m ∧
      (appTaskfu_10ms s).task_flag_10m = s.task_flag_10m ∧
      (appTaskfu_10ms s).task_flag_100m = s.task_flag_100m ∧
      (appTaskfu_10ms s).task_flag_1000m = s.task_flag_1000m) ∧
    ((appTaskfu_100ms s).task_cnt_1m = s.task_cnt_1m ∧
      (appTaskfu_100ms s).task_cnt_10m = s.task_cnt_10m ∧
      (appTaskfu_100ms s).task_cnt_1000m = s.task_cnt_1000m ∧
      (appTaskfu_100ms s).task_flag_1m = s.task_flag_1m ∧
      (appTaskfu_100ms s).task_flag_10m = s.task_flag_10m ∧
      (appTaskfu_100ms s).task_flag_100m = s.task_flag_100m ∧
      (appTaskfu_100ms s).task_flag_1000m = s.task_flag_1000m) := by
  repeat' apply And.intro
  all_goals
    (simp only [appTaskfu_1ms, appTaskfu_10ms, appTaskfu_100ms]
     split <;> rfl)

/-- C10: `appTaskfu_init`, `appTaskfu_idle` and `appIsrCb_1ms` have empty
bodies: each leaves the whole module state unchanged. -/
theorem emptyTaskFunctions_noop (s : AppState) :
    appTaskfu_init s = s ∧ appTaskfu_idle s = s ∧ appIsrCb_1ms s = s :=
  ⟨rfl, rfl, rfl⟩

/-!
## Claim theorems: IOM driver
-/

/-- C1: every LAM object produced by `IfxIom_Driver_initLam` (the only
operation that creates a Channel; enable/disable and glitch-clear act on
module state, never on the LAM fields) satisfies: the accumulator index is
non-negative iff the system-event trigger threshold is at least 2, and for
threshold 0 or 1 the index is -1. -/
theorem initLam_accumulatorIndex_iff (d : IfxIom_Driver)
    (cfg : IfxIom_Driver_LamConfig) (p : ℚ) (lam : IfxIom_Driver_Lam)
    (d' : IfxIom_Driver)
    (h : IfxIom_Driver_initLam d cfg p = (.ok lam, d')) :
    (0 ≤ lam.accumulatedCounterIndex ↔ 2 ≤ lam.systemEventTriggerThreshold) ∧
    ((lam.systemEventTriggerThreshold = 0 ∨
        lam.systemEventTriggerThreshold = 1) →
      lam.accumulatedCounterIndex = -1) := by
  unfold IfxIom_Driver_initLam at h
  repeat' split at h
  all_goals injection h with h1 h2
  all_goals
    first
      | (injection h1; done)
      | (injection h1 with h3
         subst h3
         refine ⟨?_, ?_⟩ <;> simp <;> omega)

/-- Witness for C1: a concrete successful configuration with
threshold 2 on a free driver yields accumulator index 0. -/
theorem initLam_accumulatorIndex_iff_witness :
    IfxIom_Driver_initLam dFree exLamConfig 1 = (.ok exLam, dAfter) ∧
    ((0 ≤ exLam.accumulatedCounterIndex ↔
        2 ≤ exLam.systemEventTriggerThreshold) ∧
      ((exLam.systemEventTriggerThreshold = 0 ∨
          exLam.systemEventTriggerThreshold = 1) →
        exLam.accumulatedCounterIndex = -1)) :=
  ⟨initLam_dFree_eval,
    initLam_accumulatorIndex_iff dFree exLamConfig 1 exLam dAfter
      initLam_dFree_eval⟩

/-- C2: `IfxIom_Driver_initLam` is transactional: whenever it returns an
error, the driver state after the call is exactly the state before the
call — neither mask has been touched. -/
theorem initLam_transactional (d : IfxIom_Driver)
    (cfg : IfxIom_Driver_LamConfig) (p : ℚ) (e : DriverError)
    (d' : IfxIom_Driver)
    (h : IfxIom_Driver_initLam d cfg p = (.error e, d')) : d' = d := by
  unfold IfxIom_Driver_initLam at h
  repeat' split at h
  all_goals simp_all

/-- Witness for C2: configuring an already-used channel fails with
`AlreadyUsed` and returns the driver unchanged. -/
theorem initLam_transactional_witness :
    IfxIom_Driver_initLam dBusy exLamConfig 1 =
      (.error .AlreadyUsed, dBusy) ∧ dBusy = dBusy :=
  ⟨initLam_dBusy_eval,
    initLam_transactional dBusy exLamConfig 1 .AlreadyUsed dBusy
      initLam_dBusy_eval⟩

/-- C3: from a driver whose accumulator pool is entirely free, four
successive `IfxIom_Driver_allocateFreeAccumulator` calls return the
distinct indices 0, 1, 2, 3 in ascending order, and the fifth call returns
`none` (pool exhausted). -/
theorem allocateFreeAccumulator_ascending (d : IfxIom_Driver)
    (h : d.accumulatedEventUsedMask = 0) :
    ∃ d1 d2 d3 d4,
      IfxIom_Driver_allocateFreeAccumulator d = some (0, d1) ∧
      IfxIom_Driver_allocateFreeAccumulator d1 = some (1, d2) ∧
      IfxIom_Driver_allocateFreeAccumulator d2 = some (2, d3) ∧
      IfxIom_Driver_allocateFreeAccumulator d3 = some (3, d4) ∧
      IfxIom_Driver_allocateFreeAccumulator d4 = none := by
  refine ⟨{ d with accumulatedEventUsedMask := 1 },
    { d with accumulatedEventUsedMask := 3 },
    { d with accumulatedEventUsedMask := 7 },
    { d with accumulatedEventUsedMask := 15 }, ?_, ?_, ?_, ?_, ?_⟩ <;>
    simp [IfxIom_Driver_allocateFreeAccumulator, h,
      findFreeAccumulator_mask0, findFreeAccumulator_mask1,
      findFreeAccumulator_mask3, findFreeAccumulator_mask7,
      findFreeAccumulator_mask15, lorBit0, lorBit1, lorBit2, lorBit3]

/-- Witness for C3 at the freshly initialized driver. -/
theorem allocateFreeAccumulator_ascending_witness :
    dFree.accumulatedEventUsedMask = 0 ∧
    (∃ d1 d2 d3 d4,
      IfxIom_Driver_allocateFreeAccumulator dFree = some (0, d1) ∧
      IfxIom_Driver_allocateFreeAccumulator d1 = some (1, d2) ∧
      IfxIom_Driver_allocateFreeAccumulator d2 = some (2, d3) ∧
      IfxIom_Driver_allocateFreeAccumulator d3 = some (3, d4) ∧
      IfxIom_Driver_allocateFreeAccumulator d4 = none) :=
  ⟨rfl, allocateFreeAccumulator_ascending dFree rfl⟩

/-- C4: `IfxIom_Driver_disableEvents` immediately followed by
`IfxIom_Driver_restoreEvents` with the returned mask restores the driver
to exactly its pre-call state (save/restore round-trip law). -/
theorem disableRestoreEvents_roundTrip (d : IfxIom_Driver) :
    IfxIom_Driver_restoreEvents (IfxIom_Driver_disableEvents d).2
      (IfxIom_Driver_disableEvents d).1 = d := rfl

/-- C5: if a channel allocation for `id` succeeded and no release has
happened since, a second allocation attempt for the same `id` fails with
`AlreadyUsed` and leaves the channel-used mask unchanged. -/
theorem tryAllocateChannel_second_fails (d : IfxIom_Driver) (id : Nat)
    (d' : IfxIom_Driver)
    (h : IfxIom_Driver_tryAllocateChannel d id = (.ok (), d')) :
    IfxIom_Driver_tryAllocateChannel d' id = (.error .AlreadyUsed, d') := by
  unfold IfxIom_Driver_tryAllocateChannel at h ⊢
  split at h
  · simp at h
  · simp only [Prod.mk.injEq, true_and] at h
    subst h
    simp [Nat.testBit_one_zero]

/-- Witness for C5: allocating channel 0 twice on a fresh driver. -/
theorem tryAllocateChannel_second_fails_witness :
    IfxIom_Driver_tryAllocateChannel dFree 0 = (.ok (), dBusy) ∧
    IfxIom_Driver_tryAllocateChannel dBusy 0 = (.error .AlreadyUsed, dBusy) :=
  ⟨tryAllocateChannel_dFree_eval,
    tryAllocateChannel_second_fails dFree 0 dBusy
      tryAllocateChannel_dFree_eval⟩

/-- C6: for every positive clock period, `toTicks` applied to zero seconds
returns exactly tick value 0. -/
theorem toTicks_zero (p : ℚ) (h : 0 < p) : toTicks 0 p = .ok 0 := by
  simp [toTicks, tickMax]

/-- Witness for C6 at clock period 1. -/
theorem toTicks_zero_witness : (0 : ℚ) < 1 ∧ toTicks 0 1 = .ok 0 :=
  ⟨by norm_num, toTicks_zero 1 (by norm_num)⟩

/-- C7: for a fixed positive clock period and non-negative seconds values
s1 ≤ s2 whose rounded quotients by the clock period are within the
representable tick range, `toTicks` succeeds on both and is monotonic
non-decreasing. -/
theorem toTicks_monotone (p s1 s2 : ℚ) (hp : 0 < p) (h0 : 0 ≤ s1)
    (h12 : s1 ≤ s2) (h1r : round (s1 / p) ≤ tickMax)
    (h2r : round (s2 / p) ≤ tickMax) :
    ∃ t1 t2, toTicks s1 p = .ok t1 ∧ toTicks s2 p = .ok t2 ∧ t1 ≤ t2 := by
  have hq : s1 / p ≤ s2 / p := (div_le_div_iff_of_pos_right hp).mpr h12
  have hr : round (s1 / p) ≤ round (s2 / p) := by
    rw [round_eq, round_eq]
    exact Int.floor_le_floor (by linarith)
  exact ⟨round (s1 / p), round (s2 / p),
    by simp [toTicks, not_lt.mpr h1r],
    by simp [toTicks, not_lt.mpr h2r], hr⟩

/-- Witness for C7 at period 1 with seconds 0 and 1. -/
theorem toTicks_monotone_witness :
    (0 : ℚ) < 1 ∧ (0 : ℚ) ≤ 0 ∧ (0 : ℚ) ≤ 1 ∧
    round ((0 : ℚ) / 1) ≤ tickMax ∧ round ((1 : ℚ) / 1) ≤ tickMax ∧
    (∃ t1 t2, toTicks 0 1 = .ok t1 ∧ toTicks 1 1 = .ok t2 ∧ t1 ≤ t2) :=
  ⟨by norm_num, by norm_num, by norm_num,
    by norm_num [tickMax], by norm_num [tickMax],
    toTicks_monotone 1 0 1 (by norm_num) (by norm_num) (by norm_num)
      (by norm_num [tickMax]) (by norm_num [tickMax])⟩
